import Mathlib

/-!
Shallow embedding of the Tricorder repository:
  * `tricorder/eval/segmentation/EvaluateSegmentationWrapper.py`
    (class `EvaluateSegmentationWrapper`: `parse_params`, `get_scores`)
  * `tricorder/mri/data/dicom.py`
    (`ReadSeries`, `ReadSeriesV2`, `ReadDICOMDIR`, `FileRead`)

External collaborators (SimpleITK readers, pydicom decoding, numpy
stacking, the EvaluateSegmentation binary, the filesystem) are modelled
as explicit data or as oracle functions passed in as parameters; the
control flow of the repository's own code is embedded line by line.
-/

namespace Tricorder

/-! ## Python scalar values and `==` semantics

`parse_params` compares each per-call argument against the sentinel
`-1` with Python `==`.  The arguments flowing through it are booleans,
numbers, strings or `None`, so we embed that fragment of Python's value
universe together with Python's `==` (under which `True == 1`,
`False == 0`, and `None` is equal only to itself). -/

inductive PyVal where
  | vBool (b : Bool)
  | vInt (n : Int)
  | vStr (s : String)
  | vNone
  deriving DecidableEq, Repr

/-- Python `==` on the embedded values: booleans compare equal to their
numeric value (`True == 1`, `False == 0`); values of unrelated kinds
compare unequal; `None` equals only `None`. -/
def pyEq : PyVal → PyVal → Bool
  | .vBool b, .vBool c => b == c
  | .vBool b, .vInt n => (if b then (1 : Int) else 0) == n
  | .vInt n, .vBool b => n == (if b then (1 : Int) else 0)
  | .vInt m, .vInt n => m == n
  | .vStr s, .vStr t => s == t
  | .vNone, .vNone => true
  | _, _ => false

/-- The sentinel `-1` used by `get_scores` for "no per-call override". -/
def sentinel : PyVal := PyVal.vInt (-1)

/-- Python truthiness of the embedded values (`bool(x)`). -/
def pyTruthy : PyVal → Bool
  | .vBool b => b
  | .vInt n => n != 0
  | .vStr s => s != ""
  | .vNone => false

/-! ## `EvaluateSegmentationWrapper.__init__` and `parse_params`

The constructor stores six overridable options.  `parse_params` keeps a
per-call argument unless it compares `== -1`, in which case the stored
constructor default is used. -/

/-- The six overridable options stored by
`EvaluateSegmentationWrapper.__init__` (`bin_file` is never
overridable and is kept separately where needed). -/
structure EvalConfig where
  useAll : PyVal
  metrics : PyVal
  threshold : PyVal
  useMMunit : PyVal
  mode : PyVal
  return_rawdict : PyVal
  deriving DecidableEq, Repr

/-- The tuple of effective option values returned by `parse_params`. -/
structure EffParams where
  useAll : PyVal
  metrics : PyVal
  threshold : PyVal
  useMMunit : PyVal
  mode : PyVal
  return_rawdict : PyVal
  deriving DecidableEq, Repr

/-- `EvaluateSegmentationWrapper.parse_params`: each per-call argument
replaces the constructor default unless it is `== -1`. -/
def parse_params (c : EvalConfig) (useAll metrics threshold useMMunit mode return_rawdict : PyVal) :
    EffParams where
  useAll := if pyEq useAll sentinel then c.useAll else useAll
  metrics := if pyEq metrics sentinel then c.metrics else metrics
  threshold := if pyEq threshold sentinel then c.threshold else threshold
  useMMunit := if pyEq useMMunit sentinel then c.useMMunit else useMMunit
  mode := if pyEq mode sentinel then c.mode else mode
  return_rawdict := if pyEq return_rawdict sentinel then c.return_rawdict else return_rawdict

/-! ## Command-line construction inside `get_scores`

After `parse_params`, `get_scores` builds the argument list
`cmd` for the external EvaluateSegmentation binary (lines 98–114 of
`EvaluateSegmentationWrapper.py`).  `truth` and `prediction` are the
paths in effect at that point (temporary files already substituted for
arrays), `xmlpath` is the caller-supplied XML path and `tmpXMLName` the
name of the fresh temporary XML file produced by `tempfile` when
`xmlpath` is `None`. -/

def buildCmd (bin_file truth prediction : String) (mode : Int) (threshold : Option String)
    (xmlpath : Option String) (tmpXMLName : String) (useMMunit useAll : Bool)
    (metrics : String) : List String :=
  let cmd := [bin_file, truth, prediction]
  let cmd := if mode == 1 then cmd.insertIdx 1 "-loc"
    else if mode == 2 then cmd.insertIdx 1 "-det"
    else cmd
  let cmd := cmd ++ (match threshold with
    | some t => ["-thd", t]
    | none => [])
  let cmd := cmd ++ (match xmlpath with
    | some p => ["-xml", p]
    | none => ["-xml", tmpXMLName])
  let cmd := cmd ++ ["-unit", if useMMunit then "millimeter" else "voxel"]
  cmd ++ ["-use", if useAll then "all" else metrics]

/-- Written from the specification's words for the command line (claim
about §4.1): the binary path followed by the truth and prediction paths
positionally; a mode flag (`-loc` for mode 1, `-det` for mode 2)
inserted as the second argument; a `-thd` flag when the threshold is
not `None`; always a `-xml` flag whose path is the caller-supplied
`xmlpath` or the temporary path when none was supplied; a `-unit` flag
set to `millimeter` when `useMMunit` is true and `voxel` otherwise; and
a `-use` flag set to `all` when `useAll` is true and to the explicit
metric list otherwise. -/
def specCmd (bin_file truth prediction : String) (mode : Int) (threshold : Option String)
    (xmlpath : Option String) (tmpXMLName : String) (useMMunit useAll : Bool)
    (metrics : String) : List String :=
  (if mode == 1 then [bin_file, "-loc", truth, prediction]
   else if mode == 2 then [bin_file, "-det", truth, prediction]
   else [bin_file, truth, prediction])
  ++ (match threshold with
      | some t => ["-thd", t]
      | none => [])
  ++ ["-xml", xmlpath.getD tmpXMLName]
  ++ ["-unit", if useMMunit then "millimeter" else "voxel"]
  ++ ["-use", if useAll then "all" else metrics]

/-! ## Temporary-file lifecycle of `get_scores` (lines 85–134)

`get_scores` creates a `NamedTemporaryFile` for `truth` and for
`prediction` when they are arrays (not `str`), and one for the XML
report when no `xmlpath` is supplied.  The closes of the two volume
temporaries are written in `try: ... .close() except: pass` blocks that
appear *after* `subprocess.Popen` / `communicate`; the XML temporary is
closed after a successful parse.  We embed the straight-line control
flow, with one boolean per fallible external step, tracking which
temporaries have been created and which are still open.  A `throw`
models an uncaught Python exception propagating out of the call. -/

/-- Which temporary files have been created and which are still open. -/
structure TempFiles where
  trueCreated : Bool
  trueOpen : Bool
  predCreated : Bool
  predOpen : Bool
  xmlCreated : Bool
  xmlOpen : Bool
  deriving DecidableEq, Repr

def TempFiles.initial : TempFiles := ⟨false, false, false, false, false, false⟩

/-- Success/failure of each fallible external step of `get_scores`. -/
structure ExtSteps where
  fileSaveTruthOk : Bool
  fileSavePredOk : Bool
  popenOk : Bool
  communicateOk : Bool
  xmlParseOk : Bool
  deriving DecidableEq, Repr

/-- The monad of the embedded `get_scores` run: temporary-file state,
with `throw` for a Python exception escaping the call.  `ExceptT` over
`StateM` keeps the state visible even when an exception escapes. -/
abbrev ScoresM := ExceptT Unit (StateM TempFiles)

/-- The temporary-file behaviour of one `get_scores` call, step by step
in source order.  `truthIsStr`/`predIsStr`: whether the input was a
path (`type(x) == str`) rather than an array; `xmlGiven`: whether
`xmlpath` was supplied. -/
def getScoresSteps (truthIsStr predIsStr xmlGiven : Bool) (ext : ExtSteps) :
    ScoresM Unit := do
  if !truthIsStr then
    -- tmpTrue = tempfile.NamedTemporaryFile(...)
    modify fun s => { s with trueCreated := true, trueOpen := true }
    -- FileSave(truth, tmpTrue.name, useV2=False)
    if !ext.fileSaveTruthOk then throw ()
  if !predIsStr then
    modify fun s => { s with predCreated := true, predOpen := true }
    if !ext.fileSavePredOk then throw ()
  -- cmd is built (pure, cannot fail)
  if !xmlGiven then
    -- tmpXML = tempfile.NamedTemporaryFile(suffix=".xml")
    modify fun s => { s with xmlCreated := true, xmlOpen := true }
  -- process = subprocess.Popen(cmd, ...)
  if !ext.popenOk then throw ()
  -- stdout, stderr = process.communicate()
  if !ext.communicateOk then throw ()
  -- try: tmpTrue.close() except: pass  — tolerates a never-created handle
  modify fun s => { s with trueOpen := false }
  -- try: tmpPred.close() except: pass
  modify fun s => { s with predOpen := false }
  -- xmltodict.parse(ET.tostring(ET.parse(...)))
  if !ext.xmlParseOk then throw ()
  if !xmlGiven then
    -- tmpXML.close()
    modify fun s => { s with xmlOpen := false }

/-- Run the embedded `get_scores` call from a clean temporary-file
state: the outcome (normal return or escaped exception) together with
the final temporary-file state. -/
def getScoresRun (truthIsStr predIsStr xmlGiven : Bool) (ext : ExtSteps) :
    Except Unit Unit × TempFiles :=
  (getScoresSteps truthIsStr predIsStr xmlGiven ext).run.run TempFiles.initial

/-- No created temporary file is left open at the end of the call. -/
def TempFiles.allReleased (s : TempFiles) : Bool :=
  !s.trueOpen && !s.predOpen && !s.xmlOpen

/-! ## XML flattening and return value of `get_scores` (lines 130–143)

`xmltodict.parse` yields a nested mapping; the code walks
`data["measurement"]["metrics"].items()` and sets
`results[k] = float(v["@value"])`.  We embed the parsed report as its
`measurement.metrics` association list (metric name ↦ the `@value`
attribute string; keys are distinct in a Python dict) plus an abstract
remainder, and keep `float` as an oracle on the attribute strings. -/

/-- The parsed XML report: the `measurement.metrics` entries (metric
name paired with its `@value` attribute) and the abstract rest of the
document. -/
structure XMLReport (Rest : Type) where
  metricsEntries : List (String × String)
  rest : Rest
  deriving DecidableEq, Repr

/-- The two possible shapes of a `get_scores` return value. -/
inductive ScoresRet (V Rest : Type) where
  | resOnly (results : List (String × V))
  | withRaw (results : List (String × V)) (data : XMLReport Rest)
  deriving DecidableEq, Repr

/-- The flattening loop: `for (k,v) in data["measurement"]["metrics"].items():
results[k] = float(v["@value"])`. -/
def flattenMetrics (parseFloat : String → V) (data : XMLReport Rest) :
    List (String × V) :=
  data.metricsEntries.map fun kv => (kv.1, parseFloat kv.2)

/-- The tail of `get_scores`: build `results` and return it, paired
with the raw parsed report when the effective `return_rawdict` is
truthy. -/
def getScoresReturn (parseFloat : String → V) (data : XMLReport Rest)
    (return_rawdict : Bool) : ScoresRet V Rest :=
  let results := flattenMetrics parseFloat data
  if return_rawdict then .withRaw results data else .resOnly results

/-! ## `FileRead` (dicom.py, lines 138–145)

One DICOM file is decoded into a dataset holding, in particular, its
pixel data; two boolean flags select what is returned. -/

/-- A decoded pydicom dataset: the embedding keeps the pixel data and
leaves the remaining attributes abstract. -/
structure Dataset (Img Attrs : Type) where
  pixel_array : Img
  attrs : Attrs
  deriving DecidableEq, Repr

/-- The three possible shapes of a `FileRead` return value. -/
inductive FileReadResult (Img Attrs : Type) where
  | dataOnly (img : Img)
  | dsOnly (ds : Dataset Img Attrs)
  | both (img : Img) (ds : Dataset Img Attrs)
  deriving DecidableEq, Repr

/-- `FileRead(file_path, return_data=True, return_ds=False)`: the file
decodes to `ds`; the flags select pixel data, the dataset, or both. -/
def FileRead (ds : Dataset Img Attrs) (return_data return_ds : Bool) :
    FileReadResult Img Attrs :=
  if return_data && !return_ds then .dataOnly ds.pixel_array
  else if !return_data && return_ds then .dsOnly ds
  else .both ds.pixel_array ds

/-! ## `ReadSeries` and `ReadSeriesV2` (dicom.py, lines 21–97)

Both functions discover series identifiers when the `series_ids`
argument is falsy (`None`, an empty list or an empty string), wrap a
bare string into a singleton list, then loop over the identifiers.  The
entire per-series body runs under `contextlib.suppress(Exception)`:
a failure skips the rest of that body, keeping whatever was already
appended.  External behaviour (SimpleITK reads, `__tags2dict`, pydicom
decoding) enters as oracle functions/data; a Lean `Except.error` is a
Python exception raised at that point of the body. -/

/-- The `series_ids` argument: `None`, a bare identifier string, or a
list of identifier strings. -/
inductive SeriesArg where
  | noneArg
  | strArg (s : String)
  | listArg (l : List String)
  deriving DecidableEq, Repr

/-- Python truthiness of the `series_ids` argument
(`bool(None) = bool([]) = bool("") = False`). -/
def SeriesArg.truthy : SeriesArg → Bool
  | .noneArg => false
  | .strArg s => s != ""
  | .listArg l => !l.isEmpty

/-- Lines 22–26 (and 59–63): when the argument is falsy the GDCM
discovery result `discovered` is used; a non-list argument is wrapped
into a singleton list. -/
def effectiveSeriesIDs (discovered : List String) : SeriesArg → List String
  | .noneArg => discovered
  | .strArg s => if s != "" then [s] else discovered
  | .listArg l => if !l.isEmpty then l else discovered

/-- The four possible return shapes of `ReadSeries`/`ReadSeriesV2`
(lines 48–55 and 90–97). -/
inductive RetShape (Img Meta : Type) where
  | imgsOnly (imgs : List Img)
  | withIDs (imgs : List Img) (sIDs : List String)
  | withMetas (imgs : List Img) (metas : List Meta)
  | withBoth (imgs : List Img) (sIDs : List String) (metas : List Meta)
  deriving DecidableEq, Repr

/-- The shape dispatch at the end of both functions, in source order:
`if return_meta and returnIDs: ... elif return_meta: ... elif
returnIDs: ... else: ...`. -/
def shapeDispatch (returnIDs return_meta : Bool) (imgs : List Img)
    (sIDs : List String) (metas : List Meta) : RetShape Img Meta :=
  if return_meta && returnIDs then .withBoth imgs sIDs metas
  else if return_meta then .withMetas imgs metas
  else if returnIDs then .withIDs imgs sIDs
  else .imgsOnly imgs

/-- The per-series loop of `ReadSeries` (lines 30–44).  `read sid`
embeds `GetGDCMSeriesFileNames` + `SetFileNames` + `Execute` +
`GetArrayFromImage` for that identifier; `metaOf sid` embeds
`__tags2dict(reader, ...)`.  On a read failure nothing of the series is
kept; on a metadata failure the image and identifier were already
appended and are kept — the suppression discards only the rest of the
body. -/
def readSeriesLoop (read : String → Except Unit Img) (metaOf : String → Except Unit Meta)
    (return_meta : Bool) : List String → List Img × List String × List Meta
  | [] => ([], [], [])
  | sid :: rest =>
    let tail := readSeriesLoop read metaOf return_meta rest
    match read sid with
    | .error _ => tail
    | .ok img =>
      if return_meta then
        match metaOf sid with
        | .ok m => (img :: tail.1, sid :: tail.2.1, m :: tail.2.2)
        | .error _ => (img :: tail.1, sid :: tail.2.1, tail.2.2)
      else (img :: tail.1, sid :: tail.2.1, tail.2.2)

/-- `ReadSeries(folder_path, returnIDs, return_meta, series_ids, ...)`:
resolve the identifier list, run the per-series loop, dispatch the
return shape.  (`series2array` re-packages the image list as one numpy
array; the embedding keeps the per-series sequence, whose length and
order it preserves.) -/
def ReadSeries (discovered : List String) (read : String → Except Unit Img)
    (metaOf : String → Except Unit Meta) (returnIDs return_meta : Bool)
    (series_ids : SeriesArg) : RetShape Img Meta :=
  let sids := effectiveSeriesIDs discovered series_ids
  let acc := readSeriesLoop read metaOf return_meta sids
  shapeDispatch returnIDs return_meta acc.1 acc.2.1 acc.2.2

/-- One DICOM file of a folder as seen by `ReadSeriesV2`: its
`SeriesInstanceUID`, its `pixel_array`, and its non-pixel attributes
(the `headers` dictionary built when `return_meta` is set). -/
structure DFile (Img Meta : Type) where
  seriesUID : String
  pixel : Img
  headers : Meta
  deriving DecidableEq, Repr

/-- The per-series body of `ReadSeriesV2` (lines 71–86) for one
identifier.  `files` is the folder's `.dcm`/`.IMA` listing in
acquisition-time order; an `Except.error` entry is a file on which
`pydicom.dcmread` raises (which aborts the whole body, since every file
is read both while sorting and in the loop).  Files whose
`SeriesInstanceUID` matches contribute their pixel array and headers;
`np.stack` raises on an empty list, and the representative metadata is
`meta[0]`. -/
def v2Body (files : List (Except Unit (DFile Img Meta))) (sid : String) :
    Except Unit (List Img × Meta) := do
  let decoded ← files.mapM id
  let matching := decoded.filter fun f => f.seriesUID == sid
  match matching with
  | [] => throw ()
  | m :: _ => pure (matching.map (fun f => f.pixel), m.headers)

/-- The per-series loop of `ReadSeriesV2` (lines 67–86): the body runs
under `suppress(Exception)`; on success the stacked image, the
identifier and (when requested) the first matching file's headers are
appended. -/
def readSeriesV2Loop (files : List (Except Unit (DFile Img Meta))) (return_meta : Bool) :
    List String → List (List Img) × List String × List Meta
  | [] => ([], [], [])
  | sid :: rest =>
    let tail := readSeriesV2Loop files return_meta rest
    match v2Body files sid with
    | .error _ => tail
    | .ok im =>
      if return_meta then (im.1 :: tail.1, sid :: tail.2.1, im.2 :: tail.2.2)
      else (im.1 :: tail.1, sid :: tail.2.1, tail.2.2)

/-- `ReadSeriesV2(folder_path, returnIDs, return_meta, series_ids, ...)`. -/
def ReadSeriesV2 (discovered : List String) (files : List (Except Unit (DFile Img Meta)))
    (returnIDs return_meta : Bool) (series_ids : SeriesArg) : RetShape (List Img) Meta :=
  let sids := effectiveSeriesIDs discovered series_ids
  let acc := readSeriesV2Loop files return_meta sids
  shapeDispatch returnIDs return_meta acc.1 acc.2.1 acc.2.2

/-! ## `ReadDICOMDIR` (dicom.py, lines 99–136)

The DICOMDIR index decodes to a hierarchy of directory records.  The
code walks `ds.patient_records`, filters children by
`DirectoryRecordType` (`"STUDY"`, `"SERIES"`, `"IMAGE"`), resolves each
image's `ReferencedFileID` (single-valued or multi-valued) to an
absolute path, and reads each series' path list under
`suppress(Exception)`, appending the array and a composite identifier
`{PatientID}_{PatientName}_{StudyID}_{SeriesInstanceUID}`.  The index
itself is data (its record fields are present once `dcmread`
succeeded); the per-series file read is the fallible oracle. -/

/-- A pydicom element value of multiplicity 1 (a bare string) or of
higher multiplicity (a list of strings), as distinguished by `ee.VM`. -/
inductive VMField where
  | one (s : String)
  | many (l : List String)
  deriving DecidableEq, Repr

/-- Line 126: `[ee.value] if ee.VM == 1 else ee.value` — the relative
file path as a list of path components. -/
def VMField.components : VMField → List String
  | .one s => [s]
  | .many l => l

/-- A DICOMDIR directory record.  Every record carries a
`DirectoryRecordType`; the identifier fields and the
`ReferencedFileID` are each meaningful at their own level of the
hierarchy and accessed only there. -/
inductive DDRecord where
  | mk (directoryRecordType : String)
      (patientID patientName studyID seriesInstanceUID : String)
      (referencedFileID : VMField)
      (children : List DDRecord)

def DDRecord.directoryRecordType : DDRecord → String
  | .mk t _ _ _ _ _ _ => t

def DDRecord.patientID : DDRecord → String
  | .mk _ p _ _ _ _ _ => p

def DDRecord.patientName : DDRecord → String
  | .mk _ _ n _ _ _ _ => n

def DDRecord.studyID : DDRecord → String
  | .mk _ _ _ s _ _ _ => s

def DDRecord.seriesInstanceUID : DDRecord → String
  | .mk _ _ _ _ u _ _ => u

def DDRecord.referencedFileID : DDRecord → VMField
  | .mk _ _ _ _ _ r _ => r

def DDRecord.children : DDRecord → List DDRecord
  | .mk _ _ _ _ _ _ c => c

/-- Line 127: `os.path.join(os.path.dirname(dicomdir_path),
os.sep.join(p))` for one image record's component list. -/
def resolvePath (dirName : String) (comps : List String) : String :=
  dirName ++ "/" ++ String.intercalate "/" comps

/-- Lines 119–127 for one SERIES record: the resolved path of every
IMAGE child. -/
def seriesPaths (dirName : String) (se : DDRecord) : List String :=
  (se.children.filter fun c => c.directoryRecordType == "IMAGE").map fun im =>
    resolvePath dirName im.referencedFileID.components

/-- The nested record walk (lines 105–127): every SERIES record reached
from `patient_records` through STUDY filtering, in traversal order,
paired with its composite identifier
`{PatientID}_{PatientName}_{StudyID}_{SeriesInstanceUID}`. -/
def seriesEntries (patients : List DDRecord) : List (String × DDRecord) :=
  patients.flatMap fun p =>
    (p.children.filter fun c => c.directoryRecordType == "STUDY").flatMap fun st =>
      (st.children.filter fun c => c.directoryRecordType == "SERIES").map fun se =>
        (p.patientID ++ "_" ++ p.patientName ++ "_" ++ st.studyID ++ "_"
          ++ se.seriesInstanceUID, se)

/-- Lines 101–134: read every enumerated series' resolved path list
under `suppress(Exception)`; on success append the array and the
composite identifier (adjacent appends inside the suppressed block). -/
def readDICOMDIRCore (dirName : String) (read : List String → Except Unit Img)
    (patients : List DDRecord) : List Img × List String :=
  let collected := (seriesEntries patients).filterMap fun e =>
    match read (seriesPaths dirName e.2) with
    | .ok img => some (img, e.1)
    | .error _ => none
  (collected.map Prod.fst, collected.map Prod.snd)

/-- The two possible return shapes of `ReadDICOMDIR` (line 136). -/
inductive DDRet (Img : Type) where
  | imgsOnly (imgs : List Img)
  | withIDs (imgs : List Img) (sIDs : List String)
  deriving DecidableEq, Repr

/-- `ReadDICOMDIR(dicomdir_path, returnIDs)`:
`return (imgs, sIDs) if returnIDs else imgs`. -/
def ReadDICOMDIR (dirName : String) (read : List String → Except Unit Img)
    (patients : List DDRecord) (returnIDs : Bool) : DDRet Img :=
  let acc := readDICOMDIRCore dirName read patients
  if returnIDs then .withIDs acc.1 acc.2 else .imgsOnly acc.1

/-! ## Helper lemmas -/

theorem lookup_map_value (l : List (String × String)) (f : String → V) (k : String) :
    ((l.map fun kv => (kv.1, f kv.2)).lookup k) = (l.lookup k).map f := by
  induction l with
  | nil => simp [List.lookup]
  | cons a t ih =>
    simp only [List.map_cons, List.lookup]
    split <;> simp [ih]

theorem readSeriesLoop_imgs (read : String → Except Unit Img)
    (metaOf : String → Except Unit Meta) (rm : Bool) (sids : List String) :
    (readSeriesLoop read metaOf rm sids).1 = sids.filterMap fun sid => (read sid).toOption := by
  induction sids with
  | nil => rfl
  | cons sid rest ih =>
    simp only [readSeriesLoop, List.filterMap_cons]
    cases h : read sid with
    | error e => simp [h, ih, Except.toOption]
    | ok img =>
      cases rm with
      | false => simp [h, ih, Except.toOption]
      | true => cases hm : metaOf sid <;> simp [h, ih, Except.toOption]

theorem readSeriesLoop_sIDs (read : String → Except Unit Img)
    (metaOf : String → Except Unit Meta) (rm : Bool) (sids : List String) :
    (readSeriesLoop read metaOf rm sids).2.1 = sids.filter fun sid => (read sid).isOk := by
  induction sids with
  | nil => rfl
  | cons sid rest ih =>
    simp only [readSeriesLoop, List.filter_cons]
    cases h : read sid with
    | error e => simp [h, ih, Except.isOk, Except.toBool]
    | ok img =>
      cases rm with
      | false => simp [h, ih, Except.isOk, Except.toBool]
      | true => cases hm : metaOf sid <;> simp [h, ih, Except.isOk, Except.toBool]

theorem readSeriesLoop_zip (read : String → Except Unit Img)
    (metaOf : String → Except Unit Meta) (rm : Bool) (sids : List String) :
    ((readSeriesLoop read metaOf rm sids).1).zip (readSeriesLoop read metaOf rm sids).2.1
      = sids.filterMap fun sid => ((read sid).toOption).map fun im => (im, sid) := by
  induction sids with
  | nil => rfl
  | cons sid rest ih =>
    simp only [List.zip] at ih ⊢
    simp only [readSeriesLoop, List.filterMap_cons]
    cases h : read sid with
    | error e => simp [h, ih, Except.toOption]
    | ok img =>
      cases rm with
      | false => simp [h, ih, Except.toOption]
      | true => cases hm : metaOf sid <;> simp [h, ih, Except.toOption]

theorem readSeriesLoop_len (read : String → Except Unit Img)
    (metaOf : String → Except Unit Meta) (rm : Bool) (sids : List String) :
    (readSeriesLoop read metaOf rm sids).1.length
      = (readSeriesLoop read metaOf rm sids).2.1.length := by
  induction sids with
  | nil => rfl
  | cons sid rest ih =>
    simp only [readSeriesLoop]
    cases h : read sid with
    | error e => exact ih
    | ok img =>
      cases rm with
      | false => simp [ih]
      | true => cases hm : metaOf sid <;> simp [ih]

theorem readSeriesLoop_all_fail (read : String → Except Unit Img)
    (metaOf : String → Except Unit Meta) (rm : Bool) (sids : List String)
    (h : ∀ sid ∈ sids, (read sid).isOk = false) :
    readSeriesLoop read metaOf rm sids = ([], [], []) := by
  induction sids with
  | nil => rfl
  | cons sid rest ih =>
    have h1 := h sid (by simp)
    simp only [readSeriesLoop]
    cases hr : read sid with
    | error e => exact ih fun s hs => h s (by simp [hs])
    | ok img => rw [hr] at h1; simp [Except.isOk, Except.toBool] at h1

theorem readSeriesV2Loop_imgs (files : List (Except Unit (DFile Img Meta)))
    (rm : Bool) (sids : List String) :
    (readSeriesV2Loop files rm sids).1
      = sids.filterMap fun sid => ((v2Body files sid).toOption).map Prod.fst := by
  induction sids with
  | nil => rfl
  | cons sid rest ih =>
    simp only [readSeriesV2Loop, List.filterMap_cons]
    cases h : v2Body files sid with
    | error e => simp [h, ih, Except.toOption]
    | ok im => cases rm <;> simp [h, ih, Except.toOption]

theorem readSeriesV2Loop_sIDs (files : List (Except Unit (DFile Img Meta)))
    (rm : Bool) (sids : List String) :
    (readSeriesV2Loop files rm sids).2.1 = sids.filter fun sid => (v2Body files sid).isOk := by
  induction sids with
  | nil => rfl
  | cons sid rest ih =>
    simp only [readSeriesV2Loop, List.filter_cons]
    cases h : v2Body files sid with
    | error e => simp [h, ih, Except.isOk, Except.toBool]
    | ok im => cases rm <;> simp [h, ih, Except.isOk, Except.toBool]

theorem readSeriesV2Loop_zip (files : List (Except Unit (DFile Img Meta)))
    (rm : Bool) (sids : List String) :
    ((readSeriesV2Loop files rm sids).1).zip (readSeriesV2Loop files rm sids).2.1
      = sids.filterMap fun sid => ((v2Body files sid).toOption).map fun im => (im.1, sid) := by
  induction sids with
  | nil => rfl
  | cons sid rest ih =>
    simp only [List.zip] at ih ⊢
    simp only [readSeriesV2Loop, List.filterMap_cons]
    cases h : v2Body files sid with
    | error e => simp [h, ih, Except.toOption]
    | ok im => cases rm <;> simp [h, ih, Except.toOption]

theorem readSeriesV2Loop_len (files : List (Except Unit (DFile Img Meta)))
    (rm : Bool) (sids : List String) :
    (readSeriesV2Loop files rm sids).1.length
      = (readSeriesV2Loop files rm sids).2.1.length := by
  induction sids with
  | nil => rfl
  | cons sid rest ih =>
    simp only [readSeriesV2Loop]
    cases h : v2Body files sid with
    | error e => exact ih
    | ok im => cases rm <;> simp [ih]

theorem readSeriesV2Loop_all_fail (files : List (Except Unit (DFile Img Meta)))
    (rm : Bool) (sids : List String)
    (h : ∀ sid ∈ sids, (v2Body files sid).isOk = false) :
    readSeriesV2Loop files rm sids = ([], [], []) := by
  induction sids with
  | nil => rfl
  | cons sid rest ih =>
    have h1 := h sid (by simp)
    simp only [readSeriesV2Loop]
    cases hr : v2Body files sid with
    | error e => exact ih fun s hs => h s (by simp [hs])
    | ok im => rw [hr] at h1; simp [Except.isOk, Except.toBool] at h1

theorem readDICOMDIRCore_sIDs (dirName : String) (read : List String → Except Unit Img)
    (patients : List DDRecord) :
    (readDICOMDIRCore dirName read patients).2
      = ((seriesEntries patients).filter fun e =>
          (read (seriesPaths dirName e.2)).isOk).map Prod.fst := by
  simp only [readDICOMDIRCore]
  induction seriesEntries patients with
  | nil => rfl
  | cons e rest ih =>
    simp only [List.filterMap_cons, List.filter_cons]
    cases h : read (seriesPaths dirName e.2) with
    | error err => simpa [h, Except.isOk, Except.toBool] using ih
    | ok img => simpa [h, Except.isOk, Except.toBool] using ih

theorem readDICOMDIRCore_zip (dirName : String) (read : List String → Except Unit Img)
    (patients : List DDRecord) :
    ((readDICOMDIRCore dirName read patients).1).zip (readDICOMDIRCore dirName read patients).2
      = (seriesEntries patients).filterMap fun e =>
          ((read (seriesPaths dirName e.2)).toOption).map fun im => (im, e.1) := by
  simp only [readDICOMDIRCore, List.zip]
  induction seriesEntries patients with
  | nil => rfl
  | cons e rest ih =>
    simp only [List.filterMap_cons]
    cases h : read (seriesPaths dirName e.2) with
    | error err => simpa [h, Except.toOption] using ih
    | ok img => simpa [h, Except.toOption] using ih

theorem readDICOMDIRCore_len (dirName : String) (read : List String → Except Unit Img)
    (patients : List DDRecord) :
    (readDICOMDIRCore dirName read patients).1.length
      = (readDICOMDIRCore dirName read patients).2.length := by
  simp [readDICOMDIRCore]

theorem readDICOMDIRCore_all_fail (dirName : String) (read : List String → Except Unit Img)
    (patients : List DDRecord)
    (h : ∀ e ∈ seriesEntries patients, (read (seriesPaths dirName e.2)).isOk = false) :
    readDICOMDIRCore dirName read patients = ([], []) := by
  simp only [readDICOMDIRCore]
  suffices hs : (seriesEntries patients).filterMap (fun e =>
      match read (seriesPaths dirName e.2) with
      | .ok img => some (img, e.1)
      | .error _ => none) = [] by simp [hs]
  rw [List.filterMap_eq_nil_iff]
  intro e he
  have hko := h e he
  cases hr : read (seriesPaths dirName e.2) with
  | error err => simp
  | ok img => rw [hr] at hko; simp [Except.isOk, Except.toBool] at hko

theorem readDICOMDIRCore_sIDs_all_ok (dirName : String) (read : List String → Except Unit Img)
    (patients : List DDRecord)
    (h : ∀ e ∈ seriesEntries patients, (read (seriesPaths dirName e.2)).isOk = true) :
    (readDICOMDIRCore dirName read patients).2 = (seriesEntries patients).map Prod.fst := by
  rw [readDICOMDIRCore_sIDs dirName read patients, List.filter_eq_self.mpr h]

theorem flatMap_length_const (l : List α) (f : α → List β) (c : Nat)
    (h : ∀ a ∈ l, (f a).length = c) : (l.flatMap f).length = l.length * c := by
  induction l with
  | nil => simp
  | cons a t ih =>
    simp only [List.flatMap_cons, List.length_append, List.length_cons]
    rw [h a (by simp), ih fun x hx => h x (by simp [hx]), Nat.succ_mul, Nat.add_comm]

theorem seriesEntries_length (patients : List DDRecord) (P S K : Nat)
    (hP : patients.length = P)
    (hS : ∀ p ∈ patients,
      (p.children.filter fun c => c.directoryRecordType == "STUDY").length = S)
    (hK : ∀ p ∈ patients,
      ∀ st ∈ p.children.filter (fun c => c.directoryRecordType == "STUDY"),
        (st.children.filter fun c => c.directoryRecordType == "SERIES").length = K) :
    (seriesEntries patients).length = P * S * K := by
  simp only [seriesEntries]
  rw [flatMap_length_const _ _ (S * K), hP, Nat.mul_assoc]
  intro p hp
  rw [flatMap_length_const _ _ K, hS p hp]
  intro st hst
  rw [List.length_map, hK p hp st hst]

/-! ## Claim theorems -/

/-- Claim C1: for each of the six overridable options (`useAll`,
`metrics`, `threshold`, `useMMunit`, `mode`, `return_rawdict`), a
per-call argument that does not compare `== -1` is used as the
effective value of the call, and the sentinel `-1` leaves the
constructor default in effect — for every combination of constructor
defaults and per-call arguments. -/
theorem parse_params_override_precedence (c : EvalConfig)
    (u m t mm md rr : PyVal) :
    ((pyEq u sentinel = false → (parse_params c u m t mm md rr).useAll = u)
      ∧ (parse_params c sentinel m t mm md rr).useAll = c.useAll)
    ∧ ((pyEq m sentinel = false → (parse_params c u m t mm md rr).metrics = m)
      ∧ (parse_params c u sentinel t mm md rr).metrics = c.metrics)
    ∧ ((pyEq t sentinel = false → (parse_params c u m t mm md rr).threshold = t)
      ∧ (parse_params c u m sentinel mm md rr).threshold = c.threshold)
    ∧ ((pyEq mm sentinel = false → (parse_params c u m t mm md rr).useMMunit = mm)
      ∧ (parse_params c u m t sentinel md rr).useMMunit = c.useMMunit)
    ∧ ((pyEq md sentinel = false → (parse_params c u m t mm md rr).mode = md)
      ∧ (parse_params c u m t mm sentinel rr).mode = c.mode)
    ∧ ((pyEq rr sentinel = false → (parse_params c u m t mm md rr).return_rawdict = rr)
      ∧ (parse_params c u m t mm md sentinel).return_rawdict = c.return_rawdict) := by
  have hs : pyEq sentinel sentinel = true := by decide
  refine ⟨⟨fun h => ?_, ?_⟩, ⟨fun h => ?_, ?_⟩, ⟨fun h => ?_, ?_⟩,
    ⟨fun h => ?_, ?_⟩, ⟨fun h => ?_, ?_⟩, ⟨fun h => ?_, ?_⟩⟩ <;>
    simp [parse_params, hs, *]

/-- Witness for C1 at concrete inputs: a per-call `useAll := False`
overrides a constructor default of `True`, and passing the sentinel for
`mode` keeps the constructor default. -/
theorem parse_params_override_precedence_witness :
    (parse_params ⟨.vBool true, .vStr "DICE,PROBDST", .vNone, .vBool false, .vInt 0, .vBool false⟩
        (.vBool false) (.vStr "DICE") (.vInt 5) (.vBool true) (.vInt 2) (.vBool true)).useAll
      = .vBool false
    ∧ (parse_params ⟨.vBool true, .vStr "DICE,PROBDST", .vNone, .vBool false, .vInt 0, .vBool false⟩
        (.vBool false) (.vStr "DICE") (.vInt 5) (.vBool true) sentinel (.vBool true)).mode
      = .vInt 0 :=
  ⟨(parse_params_override_precedence
      ⟨.vBool true, .vStr "DICE,PROBDST", .vNone, .vBool false, .vInt 0, .vBool false⟩
      (.vBool false) (.vStr "DICE") (.vInt 5) (.vBool true) (.vInt 2) (.vBool true)).1.1
      (by decide),
    (parse_params_override_precedence
      ⟨.vBool true, .vStr "DICE,PROBDST", .vNone, .vBool false, .vInt 0, .vBool false⟩
      (.vBool false) (.vStr "DICE") (.vInt 5) (.vBool true) (.vInt 2) (.vBool true)).2.2.2.2.1.2⟩

/-- Claim C2 counterexample: `truth` is an in-memory array (so a
temporary volume file is created and `FileSave` succeeds), but
`subprocess.Popen` raises; the exception escapes the call with the
created temporary file never closed — the `try/except` cleanup sits
after the subprocess steps, not in a `finally`.  This refutes the claim
that the temporary files are released regardless of whether the
subprocess launch succeeds. -/
theorem get_scores_temp_leak_ce :
    ((getScoresRun false true true ⟨true, true, false, true, true⟩).1.isOk = false)
    ∧ ((getScoresRun false true true ⟨true, true, false, true, true⟩).2.trueCreated = true)
    ∧ ((getScoresRun false true true ⟨true, true, false, true, true⟩).2.trueOpen = true) := by
  decide

/-- Claim C2 (amended): when the subprocess phase (`Popen` and
`communicate`) completes without raising, the temporary volume files
created for array inputs are closed before XML parsing — hence
regardless of whether XML parsing succeeds — and the cleanup tolerates
handles that were never created (string inputs) without raising: with
every external step succeeding the call returns normally for every
combination of input kinds. -/
theorem get_scores_temp_release_after_subprocess :
    ∀ (truthIsStr predIsStr xmlGiven parseOk : Bool),
      ((getScoresRun truthIsStr predIsStr xmlGiven
          ⟨true, true, true, true, parseOk⟩).2.trueOpen = false)
      ∧ ((getScoresRun truthIsStr predIsStr xmlGiven
          ⟨true, true, true, true, parseOk⟩).2.predOpen = false)
      ∧ ((getScoresRun truthIsStr predIsStr xmlGiven
          ⟨true, true, true, true, true⟩).1.isOk = true) := by
  decide

/-- Claim C3 counterexample: `FileRead` with both flags false falls
through to the final `else` and returns the pair
`(ds.pixel_array, ds)`, not the pixel data alone as in the default
`return_data=True, return_ds=False` case. -/
theorem fileRead_both_false_ce :
    (FileRead (⟨0, 0⟩ : Dataset Nat Nat) false false = .both 0 ⟨0, 0⟩)
    ∧ (FileRead (⟨0, 0⟩ : Dataset Nat Nat) false false
        ≠ FileRead (⟨0, 0⟩ : Dataset Nat Nat) true false) := by
  decide

/-- Claim C3 (amended): for every DICOM file, `FileRead` with both
flags false returns the pair (pixel data, dataset) — the same result
as the both-true case — while the default `return_data=True,
return_ds=False` case returns the pixel data alone. -/
theorem fileRead_both_false_returns_pair (ds : Dataset Img Attrs) :
    FileRead ds false false = .both ds.pixel_array ds
    ∧ FileRead ds false false = FileRead ds true true
    ∧ FileRead ds true false = .dataOnly ds.pixel_array := by
  simp [FileRead]

/-- Claim C4: the argument list passed to the external tool is exactly
as the specification describes it — binary path, truth and prediction
paths positionally, a `-loc`/`-det` flag inserted as second argument
for modes 1/2, a `-thd` flag when the effective threshold is not
`None`, always a `-xml` flag carrying the caller-supplied path or the
temporary path, a `-unit` flag (`millimeter`/`voxel`), and a `-use`
flag (`all` or the explicit metric list). -/
theorem get_scores_cmd_matches_spec (bin_file truth prediction : String) (mode : Int)
    (threshold : Option String) (xmlpath : Option String) (tmpXMLName : String)
    (useMMunit useAll : Bool) (metrics : String) :
    buildCmd bin_file truth prediction mode threshold xmlpath tmpXMLName useMMunit useAll metrics
      = specCmd bin_file truth prediction mode threshold xmlpath tmpXMLName useMMunit useAll
        metrics := by
  cases threshold <;> cases xmlpath <;> simp [buildCmd, specCmd, List.insertIdx]

/-- Claim C5: in `ReadSeries`, `ReadSeriesV2` and `ReadDICOMDIR`, a
series whose read raises is omitted from every returned collection and
the failure does not propagate (each function is total in the
embedding: its value is fully characterised below); in particular, when
every series fails to read, the result is the empty collections. -/
theorem per_series_failure_swallowed (read : String → Except Unit Img)
    (metaOf : String → Except Unit Meta) (rm : Bool) (sids : List String)
    (files : List (Except Unit (DFile Img Meta))) (dirName : String)
    (readP : List String → Except Unit Img) (patients : List DDRecord) :
    ((readSeriesLoop read metaOf rm sids).2.1 = sids.filter fun sid => (read sid).isOk)
    ∧ ((readSeriesLoop read metaOf rm sids).1 = sids.filterMap fun sid => (read sid).toOption)
    ∧ ((∀ sid ∈ sids, (read sid).isOk = false)
        → readSeriesLoop read metaOf rm sids = ([], [], []))
    ∧ ((readSeriesV2Loop files rm sids).2.1 = sids.filter fun sid => (v2Body files sid).isOk)
    ∧ ((readSeriesV2Loop files rm sids).1
        = sids.filterMap fun sid => ((v2Body files sid).toOption).map Prod.fst)
    ∧ ((∀ sid ∈ sids, (v2Body files sid).isOk = false)
        → readSeriesV2Loop files rm sids = ([], [], []))
    ∧ ((readDICOMDIRCore dirName readP patients).2
        = ((seriesEntries patients).filter fun e =>
            (readP (seriesPaths dirName e.2)).isOk).map Prod.fst)
    ∧ ((∀ e ∈ seriesEntries patients, (readP (seriesPaths dirName e.2)).isOk = false)
        → readDICOMDIRCore dirName readP patients = ([], [])) :=
  ⟨readSeriesLoop_sIDs read metaOf rm sids,
    readSeriesLoop_imgs read metaOf rm sids,
    readSeriesLoop_all_fail read metaOf rm sids,
    readSeriesV2Loop_sIDs files rm sids,
    readSeriesV2Loop_imgs files rm sids,
    readSeriesV2Loop_all_fail files rm sids,
    readDICOMDIRCore_sIDs dirName readP patients,
    readDICOMDIRCore_all_fail dirName readP patients⟩

/-- Witness for C5 at concrete inputs: one series whose read raises is
omitted, and with every read failing each function returns empty
collections. -/
theorem per_series_failure_swallowed_witness :
    (readSeriesLoop (fun _ => (.error () : Except Unit Nat))
        (fun _ => (.ok 0 : Except Unit Nat)) true ["a"] = ([], [], []))
    ∧ (readSeriesV2Loop ([] : List (Except Unit (DFile Nat Nat))) true ["a"] = ([], [], []))
    ∧ (readDICOMDIRCore "d" (fun _ => (.error () : Except Unit Nat)) [] = ([], [])) := by
  have h := per_series_failure_swallowed (fun _ => (.error () : Except Unit Nat))
    (fun _ => (.ok 0 : Except Unit Nat)) true ["a"]
    ([] : List (Except Unit (DFile Nat Nat))) "d"
    (fun _ => (.error () : Except Unit Nat)) []
  exact ⟨h.2.2.1 (by decide), h.2.2.2.2.2.1 (by decide), h.2.2.2.2.2.2.2 (by decide)⟩

/-- Claim C6: `ReadSeries` and `ReadSeriesV2` return exactly the tuple
shape fixed by the priority order — `(images, ids, metas)` when both
flags are true, `(images, metas)` when only `return_meta` is true,
`(images, ids)` when only `returnIDs` is true, and the images alone
when both are false. -/
theorem series_return_shape_priority (discovered : List String)
    (read : String → Except Unit Img) (metaOf : String → Except Unit Meta)
    (s : SeriesArg) (files : List (Except Unit (DFile Img Meta))) :
    (ReadSeries discovered read metaOf true true s
      = .withBoth (readSeriesLoop read metaOf true (effectiveSeriesIDs discovered s)).1
        (readSeriesLoop read metaOf true (effectiveSeriesIDs discovered s)).2.1
        (readSeriesLoop read metaOf true (effectiveSeriesIDs discovered s)).2.2)
    ∧ (ReadSeries discovered read metaOf false true s
      = .withMetas (readSeriesLoop read metaOf true (effectiveSeriesIDs discovered s)).1
        (readSeriesLoop read metaOf true (effectiveSeriesIDs discovered s)).2.2)
    ∧ (ReadSeries discovered read metaOf true false s
      = .withIDs (readSeriesLoop read metaOf false (effectiveSeriesIDs discovered s)).1
        (readSeriesLoop read metaOf false (effectiveSeriesIDs discovered s)).2.1)
    ∧ (ReadSeries discovered read metaOf false false s
      = .imgsOnly (readSeriesLoop read metaOf false (effectiveSeriesIDs discovered s)).1)
    ∧ (ReadSeriesV2 discovered files true true s
      = .withBoth (readSeriesV2Loop files true (effectiveSeriesIDs discovered s)).1
        (readSeriesV2Loop files true (effectiveSeriesIDs discovered s)).2.1
        (readSeriesV2Loop files true (effectiveSeriesIDs discovered s)).2.2)
    ∧ (ReadSeriesV2 discovered files false true s
      = .withMetas (readSeriesV2Loop files true (effectiveSeriesIDs discovered s)).1
        (readSeriesV2Loop files true (effectiveSeriesIDs discovered s)).2.2)
    ∧ (ReadSeriesV2 discovered files true false s
      = .withIDs (readSeriesV2Loop files false (effectiveSeriesIDs discovered s)).1
        (readSeriesV2Loop files false (effectiveSeriesIDs discovered s)).2.1)
    ∧ (ReadSeriesV2 discovered files false false s
      = .imgsOnly (readSeriesV2Loop files false (effectiveSeriesIDs discovered s)).1) := by
  refine ⟨?_, ?_, ?_, ?_, ?_, ?_, ?_, ?_⟩ <;>
    simp [ReadSeries, ReadSeriesV2, shapeDispatch]

/-- Claim C7: for every successful `get_scores` call, the result
mapping has exactly one entry per key of the report's
`measurement.metrics` substructure (same keys, in order), each value
being the parse of that entry's `@value` attribute; the call returns
the pair (results, full report) exactly when the effective
`return_rawdict` is enabled, and the results alone otherwise. -/
theorem get_scores_result_mapping (parseFloat : String → V) (data : XMLReport Rest) :
    ((flattenMetrics parseFloat data).map Prod.fst = data.metricsEntries.map Prod.fst)
    ∧ (∀ k, (flattenMetrics parseFloat data).lookup k
        = (data.metricsEntries.lookup k).map parseFloat)
    ∧ (getScoresReturn parseFloat data true = .withRaw (flattenMetrics parseFloat data) data)
    ∧ (getScoresReturn parseFloat data false = .resOnly (flattenMetrics parseFloat data)) := by
  refine ⟨?_, fun k => ?_, ?_, ?_⟩
  · simp [flattenMetrics]
  · exact lookup_map_value data.metricsEntries parseFloat k
  · simp [getScoresReturn]
  · simp [getScoresReturn]

/-- A DICOMDIR index with P=2 patients, S=1 study each, K=1 series
each, whose composite identifiers collide: patient `p` named `q_r` and
patient `p_q` named `r`, both with study `s` and series UID `u`, yield
the same underscore-joined composite `p_q_r_s_u`. -/
def collidingPatients : List DDRecord :=
  [.mk "PATIENT" "p" "q_r" "" "" (.one "f") [.mk "STUDY" "" "" "s" "" (.one "f")
      [.mk "SERIES" "" "" "" "u" (.one "f") []]],
    .mk "PATIENT" "p_q" "r" "" "" (.one "f") [.mk "STUDY" "" "" "s" "" (.one "f")
      [.mk "SERIES" "" "" "" "u" (.one "f") []]]]

/-- Claim C8 counterexample: on `collidingPatients` (P=2, S=1, K=1,
every decode succeeding) `ReadDICOMDIR` enumerates P×S×K = 2 composite
identifiers, but they are equal, so it does not enumerate 2 *distinct*
composite identifiers as the claim states. -/
theorem dicomdir_distinct_ids_ce :
    ((readDICOMDIRCore "d" (fun _ => (.ok 0 : Except Unit Nat)) collidingPatients).2
      = ["p_q_r_s_u", "p_q_r_s_u"])
    ∧ ¬ ((readDICOMDIRCore "d" (fun _ => (.ok 0 : Except Unit Nat))
        collidingPatients).2.Nodup) := by
  decide

/-- Claim C8 (amended): for every DICOMDIR index describing P patients,
each with S studies and each study with K series, `ReadDICOMDIR`
enumerates, absent decode failures, exactly P×S×K composite series
identifiers (counted with multiplicity), each combining the patient ID,
patient name, study ID and series UID of the corresponding records; the
composites need not be pairwise distinct when the joined fields
collide. -/
theorem dicomdir_enumerates_PSK_composites (dirName : String)
    (read : List String → Except Unit Img) (patients : List DDRecord) (P S K : Nat)
    (hP : patients.length = P)
    (hS : ∀ p ∈ patients,
      (p.children.filter fun c => c.directoryRecordType == "STUDY").length = S)
    (hK : ∀ p ∈ patients,
      ∀ st ∈ p.children.filter (fun c => c.directoryRecordType == "STUDY"),
        (st.children.filter fun c => c.directoryRecordType == "SERIES").length = K)
    (hok : ∀ e ∈ seriesEntries patients, (read (seriesPaths dirName e.2)).isOk = true) :
    ((readDICOMDIRCore dirName read patients).2.length = P * S * K)
    ∧ ((readDICOMDIRCore dirName read patients).2
        = (seriesEntries patients).map Prod.fst) := by
  have hids := readDICOMDIRCore_sIDs_all_ok dirName read patients hok
  refine ⟨?_, hids⟩
  rw [hids, List.length_map, seriesEntries_length patients P S K hP hS hK]

/-- Witness for C8 at a concrete index: one patient (`pid`, name
`pname`) with one study `st` holding two series `u1`, `u2`, every
decode succeeding: 1×1×2 composites are enumerated. -/
theorem dicomdir_enumerates_PSK_composites_witness :
    ((readDICOMDIRCore "d" (fun _ => (.ok 0 : Except Unit Nat))
        [.mk "PATIENT" "pid" "pname" "" "" (.one "f")
          [.mk "STUDY" "" "" "st" "" (.one "f")
            [.mk "SERIES" "" "" "" "u1" (.one "f") [],
              .mk "SERIES" "" "" "" "u2" (.one "f") []]]]).2.length = 1 * 1 * 2)
    ∧ ((readDICOMDIRCore "d" (fun _ => (.ok 0 : Except Unit Nat))
        [.mk "PATIENT" "pid" "pname" "" "" (.one "f")
          [.mk "STUDY" "" "" "st" "" (.one "f")
            [.mk "SERIES" "" "" "" "u1" (.one "f") [],
              .mk "SERIES" "" "" "" "u2" (.one "f") []]]]).2
        = (seriesEntries
            [.mk "PATIENT" "pid" "pname" "" "" (.one "f")
              [.mk "STUDY" "" "" "st" "" (.one "f")
                [.mk "SERIES" "" "" "" "u1" (.one "f") [],
                  .mk "SERIES" "" "" "" "u2" (.one "f") []]]]).map Prod.fst) :=
  dicomdir_enumerates_PSK_composites "d" (fun _ => (.ok 0 : Except Unit Nat))
    [.mk "PATIENT" "pid" "pname" "" "" (.one "f")
      [.mk "STUDY" "" "" "st" "" (.one "f")
        [.mk "SERIES" "" "" "" "u1" (.one "f") [],
          .mk "SERIES" "" "" "" "u2" (.one "f") []]]] 1 1 2
    (by decide) (by decide) (by decide) (by decide)

/-- Claim C9: in the accumulation loops of `ReadSeries`,
`ReadSeriesV2` and `ReadDICOMDIR`, the images collection and the
identifiers list have equal length, and zipping them recovers, in
order, exactly the successfully read (image, identifier) pairs — the
identifier at index i is the one under which the image at index i was
read, however many series were skipped. -/
theorem images_ids_pairing (read : String → Except Unit Img)
    (metaOf : String → Except Unit Meta) (rm : Bool) (sids : List String)
    (files : List (Except Unit (DFile Img Meta))) (dirName : String)
    (readP : List String → Except Unit Img) (patients : List DDRecord) :
    ((readSeriesLoop read metaOf rm sids).1.length
      = (readSeriesLoop read metaOf rm sids).2.1.length)
    ∧ (((readSeriesLoop read metaOf rm sids).1).zip (readSeriesLoop read metaOf rm sids).2.1
      = sids.filterMap fun sid => ((read sid).toOption).map fun im => (im, sid))
    ∧ ((readSeriesV2Loop files rm sids).1.length
      = (readSeriesV2Loop files rm sids).2.1.length)
    ∧ (((readSeriesV2Loop files rm sids).1).zip (readSeriesV2Loop files rm sids).2.1
      = sids.filterMap fun sid => ((v2Body files sid).toOption).map fun im => (im.1, sid))
    ∧ ((readDICOMDIRCore dirName readP patients).1.length
      = (readDICOMDIRCore dirName readP patients).2.length)
    ∧ (((readDICOMDIRCore dirName readP patients).1).zip
        (readDICOMDIRCore dirName readP patients).2
      = (seriesEntries patients).filterMap fun e =>
          ((readP (seriesPaths dirName e.2)).toOption).map fun im => (im, e.1)) :=
  ⟨readSeriesLoop_len read metaOf rm sids,
    readSeriesLoop_zip read metaOf rm sids,
    readSeriesV2Loop_len files rm sids,
    readSeriesV2Loop_zip files rm sids,
    readDICOMDIRCore_len dirName readP patients,
    readDICOMDIRCore_zip dirName readP patients⟩

/-- Claim C10: calling `ReadSeries` or `ReadSeriesV2` with
`series_ids = []` behaves identically to calling it with
`series_ids = None`: both are falsy, so both trigger GDCM discovery of
all series identifiers in the folder rather than returning empty
results. -/
theorem empty_series_ids_triggers_discovery (discovered : List String)
    (read : String → Except Unit Img) (metaOf : String → Except Unit Meta)
    (returnIDs return_meta : Bool) (files : List (Except Unit (DFile Img Meta))) :
    (effectiveSeriesIDs discovered (SeriesArg.listArg []) = discovered)
    ∧ (effectiveSeriesIDs discovered SeriesArg.noneArg = discovered)
    ∧ (ReadSeries discovered read metaOf returnIDs return_meta (SeriesArg.listArg [])
        = ReadSeries discovered read metaOf returnIDs return_meta SeriesArg.noneArg)
    ∧ (ReadSeriesV2 discovered files returnIDs return_meta (SeriesArg.listArg [])
        = ReadSeriesV2 discovered files returnIDs return_meta SeriesArg.noneArg) := by
  refine ⟨rfl, rfl, ?_, ?_⟩ <;> simp [ReadSeries, ReadSeriesV2, effectiveSeriesIDs]

end Tricorder
